import Mathlib

/-!
Shallow embedding of the `ai-microservice` repository (FastAPI service with
three LLM backend adapters: `app/gemini_service.py`, `app/groq_service.py`,
`app/grok_service.py`, plus `app/provider_selector.py`, `app/models.py` and
`main.py`).

Modelling conventions:
* Upstream model completions are external; each adapter operation is
  parameterized by an oracle describing the upstream outcome of each call.
  The outcome of a successful completion is given as its *decoded* JSON value
  (the concrete byte string and `json.loads` are elided; the constructors of
  `UpstreamText` / `ClassifyOutcome` record which textual category the raw
  content fell into).
* Python exceptions are modelled as explicit outcome constructors; every
  embedded function is total, matching code paths that catch exceptions.
* `await asyncio.sleep(d)` is recorded in a `delays` list; the number of
  upstream completion requests issued is recorded in a `calls` field.
* Python floats carried inside trade records are modelled as `Int`
  (no claim depends on fractional values or float arithmetic).
-/

/-- Decoded JSON values, the result of a successful `json.loads`.
Numbers are modelled as integers. -/
inductive Json where
  | null : Json
  | bool (b : Bool) : Json
  | num (n : Int) : Json
  | str (s : String) : Json
  | arr (elems : List Json) : Json
  | obj (fields : List (String × Json)) : Json
deriving Repr

/-- Python `dict.get(key)` on a decoded JSON object: first binding wins. -/
def lookupField : List (String × Json) → String → Option Json
  | [], _ => none
  | (k, v) :: rest, key => if k = key then some v else lookupField rest key

/-- Python truthiness of a decoded JSON value (`bool(x)`). -/
def Json.pyTruthy : Json → Bool
  | .null => false
  | .bool b => b
  | .num n => n != 0
  | .str s => s != ""
  | .arr [] => false
  | .arr (_ :: _) => true
  | .obj [] => false
  | .obj (_ :: _) => true

/-! ## `app/models.py` -/

/-- `models.TradeCreate`: the trade record schema.  `quantity` is a
*required* field of the pydantic model (it has no default value in the
schema; the "default to 1" only appears in prompt text sent to the model).
Dates are carried as their ISO strings; format validation is elided since no
claim depends on it. -/
structure TradeCreate where
  ticker : String
  entry_date : String
  entry_price : Int
  quantity : Int
  exit_date : Option String := none
  exit_price : Option Int := none
  notes : Option String := none
deriving Repr, DecidableEq

/-- `models.Message`: a chat message with role `user` or `assistant`. -/
structure Message where
  role : String
  content : String
deriving Repr, DecidableEq

/-- pydantic validation of a required `str` field. -/
def asStr : Json → Option String
  | .str s => some s
  | _ => none

/-- pydantic validation of a required `float` field (numbers only). -/
def asNum : Json → Option Int
  | .num n => some n
  | _ => none

/-- pydantic validation of an `Optional[str]` field: absent or JSON null
yields `None`; any other value must be a string. -/
def asOptStr : Option Json → Option (Option String)
  | none => some none
  | some .null => some none
  | some j => (asStr j).map some

/-- pydantic validation of an `Optional[float]` field. -/
def asOptNum : Option Json → Option (Option Int)
  | none => some none
  | some .null => some none
  | some j => (asNum j).map some

/-- `TradeCreate.model_validate_json` on a decoded JSON value: all four
required fields must be present with the right types (there is no default
for `quantity`); unknown fields are ignored; `none` models the
`ValidationError` exception. -/
def validateTradeCreate (j : Json) : Option TradeCreate :=
  match j with
  | .obj fields => do
    let ticker ← (lookupField fields "ticker").bind asStr
    let entry_date ← (lookupField fields "entry_date").bind asStr
    let entry_price ← (lookupField fields "entry_price").bind asNum
    let quantity ← (lookupField fields "quantity").bind asNum
    let exit_date ← asOptStr (lookupField fields "exit_date")
    let exit_price ← asOptNum (lookupField fields "exit_price")
    let notes ← asOptStr (lookupField fields "notes")
    pure ⟨ticker, entry_date, entry_price, quantity, exit_date, exit_price, notes⟩
  | _ => none

/-- Python `xs[-n:]`: the last `n` elements of a list. -/
def lastN (n : Nat) (xs : List α) : List α := xs.drop (xs.length - n)

/-! ## Intent classification (stage 1 of every adapter)

All three adapters run `json.loads` on the completion content and then
`data.get("intent", "OTHER").upper()`, catching every exception. -/

/-- Outcome of one classification completion: either some exception was
raised by the request / `json.loads` (network error, timeout, non-JSON
content), or the content decoded to the JSON value `j`. -/
inductive ClassifyOutcome where
  | failure : ClassifyOutcome
  | parsed (j : Json) : ClassifyOutcome
deriving Repr

/-- Python `str.upper()`, applied character by character (the intent
tokens and the strings of interest are ASCII). -/
def pyUpper (s : String) : String := ⟨s.data.map Char.toUpper⟩

/-- Python `str.lower()`, applied character by character. -/
def pyLower (s : String) : String := ⟨s.data.map Char.toLower⟩

/-- One classification attempt after a successful parse:
`data.get("intent", "OTHER").upper()`.  `none` models an exception raised
by this line itself: `.get` on a non-dict (`AttributeError`) or `.upper()`
on a non-string value. -/
def intentStep : ClassifyOutcome → Option String
  | .failure => none
  | .parsed j =>
    match j with
    | .obj fields =>
      match lookupField fields "intent" with
      | some (.str s) => some (pyUpper s)
      | some _ => none
      | none => some "OTHER"
    | _ => none

/-- The five intent category tokens of the spec's `Intent` enumeration. -/
def intentTokens : List String :=
  ["LOG_TRADE", "REVIEW_ANALYSIS", "NEWS_MARKET", "PLAN_STRATEGY", "OTHER"]

/-! ## Upstream outcomes shared by the extraction / chat / analysis loops -/

/-- Category of the text content of a successful extraction completion.
`nullLike` is the adapter-specific "no trade found" sentinel test on the raw
content (gemini: `strip().lower()` is `"null"` or `"none"`; groq: content
contains both `"null"` and `"error"`; grok: content contains `"null"`).
`invalid` is content on which `model_validate_json` raises because it is not
JSON at all (including a `None` content). -/
inductive UpstreamText where
  | empty : UpstreamText
  | nullLike : UpstreamText
  | invalid : UpstreamText
  | json (j : Json) : UpstreamText
deriving Repr

/-- Outcome of one extraction completion request.  `unavailable` is an
`APIError` whose text contains `"503"`; `apiError` is any other `APIError`;
`exn` is any non-`APIError` exception. -/
inductive ExtractOutcome where
  | ok (t : UpstreamText) : ExtractOutcome
  | unavailable : ExtractOutcome
  | apiError : ExtractOutcome
  | exn : ExtractOutcome
deriving Repr

/-- Observable run of an extraction call: the returned value, the number of
extraction completion requests issued, the classification requests issued,
and the sequence of backoff sleeps (in seconds). -/
structure ExtractRun where
  result : Option TradeCreate
  calls : Nat
  classifyCalls : Nat
  delays : List Nat
deriving Repr

/-- Intermediate result of a retry loop body: returned value, completion
requests issued, backoff sleeps performed. -/
structure LoopRun where
  result : Option TradeCreate
  calls : Nat
  delays : List Nat
deriving Repr

/-- Handling of a successful extraction completion, common to all three
adapters: empty content and the adapter's "no trade" sentinel yield `None`;
content that fails JSON decoding or pydantic validation raises, which the
surrounding handler converts to `None`; a decoded value is validated with
`TradeCreate.model_validate_json`. -/
def extractStep : UpstreamText → Option TradeCreate
  | .empty => none
  | .nullLike => none
  | .invalid => none
  | .json j => validateTradeCreate j

/-! ## `app/gemini_service.py` (class `AIService`, selected by `AI_PROVIDER=gemini`) -/

namespace Gemini

/-- `classify_intent` (lines 43-81): `MAX_RETRIES = 2`; any exception on the
first attempt sleeps 1 second and retries once; an exception on the second
attempt returns `"OTHER"`. -/
def classify_intent (o : Nat → ClassifyOutcome) : String :=
  match intentStep (o 0) with
  | some s => s
  | none =>
    match intentStep (o 1) with
    | some s => s
    | none => "OTHER"

/-- Number of classification completion requests `classify_intent` issues. -/
def classifyCallsOf (o : Nat → ClassifyOutcome) : Nat :=
  match intentStep (o 0) with
  | some _ => 1
  | none => 2

/-- The extraction retry loop of `extract_trade_from_text` (lines 112-139):
`MAX_RETRIES = 3`; only an `APIError` containing `"503"` on a non-final
attempt sleeps `2 ** attempt` seconds and retries; every other failure
returns `None` at once.  `fuel` counts the remaining loop iterations
(`attempt + fuel = 3` at the top-level call). -/
def extractLoop (o : Nat → ExtractOutcome) : Nat → Nat → LoopRun
  | _, 0 => ⟨none, 0, []⟩
  | attempt, fuel + 1 =>
    match o attempt with
    | .ok t => ⟨extractStep t, 1, []⟩
    | .unavailable =>
      if fuel = 0 then ⟨none, 1, []⟩
      else
        let rest := extractLoop o (attempt + 1) fuel
        ⟨rest.result, rest.calls + 1, 2 ^ attempt :: rest.delays⟩
    | .apiError => ⟨none, 1, []⟩
    | .exn => ⟨none, 1, []⟩

/-- `extract_trade_from_text` (lines 84-139): first invokes
`classify_intent`; unless the intent is `"LOG_TRADE"` it returns `None`
without issuing any extraction completion; otherwise it runs the 3-attempt
extraction loop. -/
def extract_trade_from_text (co : Nat → ClassifyOutcome) (o : Nat → ExtractOutcome) :
    ExtractRun :=
  if classify_intent co ≠ "LOG_TRADE" then ⟨none, 0, classifyCallsOf co, []⟩
  else
    let r := extractLoop o 0 3
    ⟨r.result, r.calls, classifyCallsOf co, r.delays⟩

/-- `grounding_metadata` of a response candidate; `search_entry_point` is
the field whose presence the code tests. -/
structure GroundingMetadata where
  search_entry_point : Option Unit
deriving Repr

/-- One entry of `response.candidates`.  `parts` holds the `text` of each
part of `candidates[0].content.parts`, with `""` standing for a part whose
`text` is `None` or empty (both are falsy in the loop at line 214). -/
structure Candidate where
  parts : List String
  grounding_metadata : Option GroundingMetadata
deriving Repr

/-- A successful `generate_content` response for the chat call.  `text` is
`response.text` with `""` standing for `None`/empty; `block_reason` is
`response.prompt_feedback.block_reason`, `none` when `prompt_feedback` is
absent or its `block_reason` unset. -/
structure Response where
  text : String
  candidates : List Candidate
  block_reason : Option String
deriving Repr

/-- Outcome of one chat completion request. -/
inductive ChatOutcome where
  | ok (r : Response) : ChatOutcome
  | unavailable : ChatOutcome
  | apiError : ChatOutcome
  | exn : ChatOutcome
deriving Repr

/-- Observable run of a chat call. -/
structure ChatRun where
  message : String
  is_grounded : Bool
  calls : Nat
  delays : List Nat
deriving Repr

/-- The fixed fallback text `fallback_msg` of `generate_chat_response`. -/
def fallback_msg : String :=
  "I apologize, but my market intelligence service is overloaded right now. Please try again in a moment."

/-- The generic last-resort text (line 224). -/
def couldNotGenerate : String :=
  "I processed your request but could not generate a text response. Please try rephrasing."

/-- Step 3 of the text-extraction chain (lines 218-219): the safety-block
text when `prompt_feedback.block_reason` is set, `""` otherwise. -/
def safetyText (r : Response) : String :=
  match r.block_reason with
  | some reason => "I cannot answer that request. (Safety Block: " ++ reason ++ ")"
  | none => ""

/-- The value of `message_text` after steps 1-3 of the chain
(lines 203-219): direct `response.text`, else the concatenated non-empty
part texts of the first candidate when its `parts` list is non-empty, else
the safety-block text (step 3 is an `elif`: it is not consulted when a
candidate with parts exists, even if all parts are empty). -/
def preResolve (r : Response) : String :=
  if r.text ≠ "" then r.text
  else
    match r.candidates.head? with
    | some c =>
      if c.parts ≠ [] then String.join (c.parts.filter (fun p => p ≠ ""))
      else safetyText r
    | none => safetyText r

/-- The full text-extraction chain (lines 203-224): the accumulated
`message_text`, with the generic message substituted whenever it is still
empty (step 4). -/
def resolveMessageText (r : Response) : String :=
  if preResolve r = "" then couldNotGenerate else preResolve r

/-- The grounding check (lines 195-201): true when the first candidate
exists, carries `grounding_metadata`, and that metadata's
`search_entry_point` is not `None`. -/
def isGroundedOf (r : Response) : Bool :=
  match r.candidates.head? with
  | some c =>
    match c.grounding_metadata with
    | some gm => gm.search_entry_point.isSome
    | none => false
  | none => false

/-- The chat retry loop of `generate_chat_response` (lines 183-242):
`MAX_RETRIES = 3`; only an `APIError` containing `"503"` on a non-final
attempt sleeps `2 ** attempt` seconds and retries; every other failure
returns `fallback_msg` with `is_grounded = False`. -/
def chatLoop (o : Nat → ChatOutcome) : Nat → Nat → ChatRun
  | _, 0 => ⟨fallback_msg, false, 0, []⟩
  | attempt, fuel + 1 =>
    match o attempt with
    | .ok r => ⟨resolveMessageText r, isGroundedOf r, 1, []⟩
    | .unavailable =>
      if fuel = 0 then ⟨fallback_msg, false, 1, []⟩
      else
        let rest := chatLoop o (attempt + 1) fuel
        ⟨rest.message, rest.is_grounded, rest.calls + 1, 2 ^ attempt :: rest.delays⟩
    | .apiError => ⟨fallback_msg, false, 1, []⟩
    | .exn => ⟨fallback_msg, false, 1, []⟩

/-- `generate_chat_response` (lines 142-242).  The system-instruction and
history windowing (`chat_history[-6:]`, `trade_history[-15:]`) only shape
the outgoing prompt and are not observable in the returned value. -/
def generate_chat_response (o : Nat → ChatOutcome) : ChatRun :=
  chatLoop o 0 3

end Gemini

/-! ## Analysis and title summarizers (shared outcome shapes) -/

/-- Outcome of an analysis completion: `ok j` when `json.loads` on the
completion content succeeded with value `j`, `failure` for any exception. -/
inductive AnalyzeOutcome where
  | ok (j : Json) : AnalyzeOutcome
  | failure : AnalyzeOutcome
deriving Repr

/-- Observable run of `analyze_trades`: the returned dict, the trade slice
embedded in the outgoing prompt, and the completion requests issued.  The
trade entries themselves are opaque to the code (`List[Dict[str, Any]]`
items that are only sliced and serialized), so the element type is a
parameter. -/
structure AnalyzeRun (α : Type) where
  result : Json
  sent : List α
  calls : Nat
deriving Repr

/-- The fixed failure dict of every adapter's `analyze_trades`. -/
def failedAnalysis : Json :=
  .obj [("summary", .str "Analysis failed."), ("insights", .arr [])]

/-- Outcome of a title completion, as for analysis. -/
inductive TitleOutcome where
  | ok (j : Json) : TitleOutcome
  | failure : TitleOutcome
deriving Repr

/-- Observable run of `generate_title_for_chat`: the returned Python value
(`none` models Python `None`; on the exception path the services return the
string `"New Chat"`) and the message window used to build the prompt. -/
structure TitleRun where
  result : Option Json
  contextMessages : List Message
deriving Repr

namespace Gemini

/-- `analyze_trades` (lines 245-270): an empty list returns the fixed
"no trades" dict without any completion request; otherwise `trades[:50]` is
embedded in the prompt and the decoded completion is returned as-is, any
exception yielding the fixed failure dict. -/
def analyze_trades (trades : List α) (o : AnalyzeOutcome) : AnalyzeRun α :=
  match trades with
  | [] => ⟨.obj [("summary", .str "No trades to analyze."), ("insights", .arr [])], [], 0⟩
  | _ :: _ =>
    match o with
    | .ok j => ⟨j, trades.take 50, 1⟩
    | .failure => ⟨failedAnalysis, trades.take 50, 1⟩

/-- `generate_title_for_chat` (lines 272-293): the prompt context is built
from `messages[-5:]`; on success the call returns `data.get("title")`
(Python `None` when the key is absent); `.get` on a non-dict raises, and any
exception returns the string `"New Chat"`. -/
def generate_title_for_chat (ms : List Message) (o : TitleOutcome) : TitleRun :=
  let ctx := lastN 5 ms
  match o with
  | .failure => ⟨some (.str "New Chat"), ctx⟩
  | .ok j =>
    match j with
    | .obj fields => ⟨lookupField fields "title", ctx⟩
    | _ => ⟨some (.str "New Chat"), ctx⟩

end Gemini

/-! ## Tool-calling chat protocol shared by `groq_service.py` and
`grok_service.py` -/

/-- One entry of the assistant message's `tool_calls`.  `argsQuery` is the
`"query"` argument recovered by `json.loads(call.function.arguments)`
followed by `args["query"]`; `none` models the exception path of that inner
`try` (malformed arguments JSON or missing key). -/
structure ToolCall where
  id : String
  name : String
  argsQuery : Option String
deriving Repr

/-- A successful completion message: its `content` (with `""` standing for
a `None` content) and its `tool_calls` list. -/
structure CompletionMessage where
  content : String
  tool_calls : List ToolCall
deriving Repr

/-- Outcome of one chat completion request in the tool-calling adapters:
these services wrap the whole body in a single `try`, so every exception is
`failure`. -/
inductive ToolChatOutcome where
  | ok (m : CompletionMessage) : ToolChatOutcome
  | failure : ToolChatOutcome
deriving Repr

/-- Observable run of a tool-calling chat call: the returned message and
grounding flag, the completion requests issued, and the contents of the
tool-result turns appended to the conversation. -/
structure ToolChatRun where
  message : String
  is_grounded : Bool
  calls : Nat
  toolTurns : List String
  delays : List Nat
deriving Repr

/-- `json.dumps` of the error dict appended when argument parsing fails;
the embedded Python exception text is abstracted to a fixed string. -/
def toolErrorContent : String := "\x7b\"error\": \"tool call failed\"\x7d"

/-- The tool-dispatch loop shared by both tool-calling adapters: for each
tool call named `fetch_stock_news`, parse its arguments and append the news
result as a tool turn, or append an error turn when argument parsing fails;
calls with any other name append nothing.  `fetch_stock_news` itself never
raises (`app/news_api_tool.py` converts every failure into an error JSON
string), so the news lookup is a total function of the query. -/
def toolTurnsOf (news : String → String) (calls : List ToolCall) : List String :=
  calls.filterMap fun c =>
    if c.name = "fetch_stock_news" then
      match c.argsQuery with
      | some q => some (news q)
      | none => some toolErrorContent
    else none

/-! ## `app/groq_service.py` (class `GroqService`, selected by
`AI_PROVIDER=groq`) -/

namespace Groq

/-- `classify_intent` (lines 28-50): a single completion request inside one
`try`; any exception returns `"OTHER"`. -/
def classify_intent (c : ClassifyOutcome) : String :=
  (intentStep c).getD "OTHER"

/-- `extract_trade_from_text` (lines 52-85): first invokes
`classify_intent`; unless the intent is `"LOG_TRADE"` it returns `None`
without issuing the extraction completion.  The extraction itself is a
single attempt inside one `try`: there is no retry loop and no backoff, and
every failure (including a 503) returns `None`. -/
def extract_trade_from_text (c : ClassifyOutcome) (e : ExtractOutcome) : ExtractRun :=
  if classify_intent c ≠ "LOG_TRADE" then ⟨none, 0, 1, []⟩
  else
    match e with
    | .ok t => ⟨extractStep t, 1, 1, []⟩
    | .unavailable => ⟨none, 1, 1, []⟩
    | .apiError => ⟨none, 1, 1, []⟩
    | .exn => ⟨none, 1, 1, []⟩

/-- The fixed fallback of `generate_chat_response` (line 177). -/
def chatFallback : String := "Groq service is currently unavailable. Please try again."

/-- `generate_chat_response` (lines 87-179): one completion request; if its
message carries tool calls, the news tool is dispatched for each
`fetch_stock_news` call and a second completion produces the final answer
with `is_grounded = True` (independent of the news lookup's outcome);
without tool calls the message content is returned directly with
`is_grounded = False`.  The whole body sits in a single `try`: any failure
returns the fixed fallback with `is_grounded = False`, with no retry and no
backoff. -/
def generate_chat_response (first : ToolChatOutcome) (news : String → String)
    (second : ToolChatOutcome) : ToolChatRun :=
  match first with
  | .failure => ⟨chatFallback, false, 1, [], []⟩
  | .ok m =>
    match m.tool_calls with
    | [] => ⟨m.content, false, 1, [], []⟩
    | _ :: _ =>
      match second with
      | .failure => ⟨chatFallback, false, 2, toolTurnsOf news m.tool_calls, []⟩
      | .ok m2 => ⟨m2.content, true, 2, toolTurnsOf news m.tool_calls, []⟩

/-- `analyze_trades` (lines 181-198): as for Gemini, with summary
`"No trades."` on an empty list and the same fixed failure dict. -/
def analyze_trades (trades : List α) (o : AnalyzeOutcome) : AnalyzeRun α :=
  match trades with
  | [] => ⟨.obj [("summary", .str "No trades."), ("insights", .arr [])], [], 0⟩
  | _ :: _ =>
    match o with
    | .ok j => ⟨j, trades.take 50, 1⟩
    | .failure => ⟨failedAnalysis, trades.take 50, 1⟩

/-- `generate_title_for_chat` (lines 200-215): context from
`messages[-5:]`; on success returns `data.get("title", "New Chat")`; any
exception returns `"New Chat"`. -/
def generate_title_for_chat (ms : List Message) (o : TitleOutcome) : TitleRun :=
  let ctx := lastN 5 ms
  match o with
  | .failure => ⟨some (.str "New Chat"), ctx⟩
  | .ok j =>
    match j with
    | .obj fields => ⟨some ((lookupField fields "title").getD (.str "New Chat")), ctx⟩
    | _ => ⟨some (.str "New Chat"), ctx⟩

end Groq

/-! ## `app/grok_service.py` (class `AIService`; the selector's
`AI_PROVIDER=grok` branch tries to import a class named `GrokService` from
this file, which does not exist) -/

namespace Grok

/-- `classify_intent` (lines 34-61): a single completion request inside one
`try` (markdown-fence stripping happens before `json.loads` and is elided
by the decoded-value abstraction); any exception returns `"OTHER"`. -/
def classify_intent (c : ClassifyOutcome) : String :=
  (intentStep c).getD "OTHER"

/-- `extract_trade_from_text` (lines 63-108): first invokes
`classify_intent`; unless the intent is `"LOG_TRADE"` it returns `None`.
The extraction is a single attempt inside one `try` (no retry loop, no
backoff); content containing `"null"` anywhere is the no-trade sentinel
(`UpstreamText.nullLike`); every failure returns `None`. -/
def extract_trade_from_text (c : ClassifyOutcome) (e : ExtractOutcome) : ExtractRun :=
  if classify_intent c ≠ "LOG_TRADE" then ⟨none, 0, 1, []⟩
  else
    match e with
    | .ok t => ⟨extractStep t, 1, 1, []⟩
    | .unavailable => ⟨none, 1, 1, []⟩
    | .apiError => ⟨none, 1, 1, []⟩
    | .exn => ⟨none, 1, 1, []⟩

/-- The fixed fallback of `generate_chat_response` (line 206). -/
def chatFallback : String := "Grok service is currently unavailable."

/-- `generate_chat_response` (lines 110-206): same tool-calling protocol as
the Groq adapter (single `try`, no retry): a first sample, tool dispatch
for `fetch_stock_news` calls, a second sample with `is_grounded = True`
when tool calls occurred; any failure returns the fixed fallback with
`is_grounded = False`. -/
def generate_chat_response (first : ToolChatOutcome) (news : String → String)
    (second : ToolChatOutcome) : ToolChatRun :=
  match first with
  | .failure => ⟨chatFallback, false, 1, [], []⟩
  | .ok m =>
    match m.tool_calls with
    | [] => ⟨m.content, false, 1, [], []⟩
    | _ :: _ =>
      match second with
      | .failure => ⟨chatFallback, false, 2, toolTurnsOf news m.tool_calls, []⟩
      | .ok m2 => ⟨m2.content, true, 2, toolTurnsOf news m.tool_calls, []⟩

/-- `analyze_trades` (lines 208-232): as for Gemini. -/
def analyze_trades (trades : List α) (o : AnalyzeOutcome) : AnalyzeRun α :=
  match trades with
  | [] => ⟨.obj [("summary", .str "No trades to analyze."), ("insights", .arr [])], [], 0⟩
  | _ :: _ =>
    match o with
    | .ok j => ⟨j, trades.take 50, 1⟩
    | .failure => ⟨failedAnalysis, trades.take 50, 1⟩

/-- `generate_title_for_chat` (lines 234-252): context from
`messages[-5:]`; on success returns `data.get("title")` (Python `None` when
the key is absent); any exception returns `"New Chat"`. -/
def generate_title_for_chat (ms : List Message) (o : TitleOutcome) : TitleRun :=
  let ctx := lastN 5 ms
  match o with
  | .failure => ⟨some (.str "New Chat"), ctx⟩
  | .ok j =>
    match j with
    | .obj fields => ⟨lookupField fields "title", ctx⟩
    | _ => ⟨some (.str "New Chat"), ctx⟩

end Grok

/-! ## `app/provider_selector.py` and `main.py` -/

namespace Selector

/-- The environment variables the selector and the service constructors
read.  A key set to the empty string is falsy in the constructors' checks. -/
structure Env where
  aiProvider : Option String
  geminiKey : Option String
  xaiKey : Option String
  groqKey : Option String
deriving Repr, DecidableEq

/-- `AI_PROVIDER = os.environ.get("AI_PROVIDER", "gemini").lower()`. -/
def AI_PROVIDER (env : Env) : String := pyLower (env.aiProvider.getD "gemini")

/-- Which branch of the selector's `if` chain runs. -/
inductive ProviderChoice where
  | grok : ProviderChoice
  | gemini : ProviderChoice
  | groq : ProviderChoice
  | placeholder : ProviderChoice
deriving Repr, DecidableEq

/-- The `if AI_PROVIDER == ...` chain of `provider_selector.py`
(lines 16-44): any unrecognized value falls through to the
`PlaceholderService` branch. -/
def selectedBranch (env : Env) : ProviderChoice :=
  if AI_PROVIDER env = "grok" then .grok
  else if AI_PROVIDER env = "gemini" then .gemini
  else if AI_PROVIDER env = "groq" then .groq
  else .placeholder

/-- `PlaceholderService.__init__` (lines 35-36): it unconditionally raises
`ValueError`, so the placeholder can never be instantiated. -/
def placeholderInit : Except String Unit :=
  .error "Invalid AI_PROVIDER set in environment."

/-- `PlaceholderService.extract_trade_from_text` (line 38). -/
def PlaceholderService.extract_trade_from_text : Option TradeCreate := none

/-- `PlaceholderService.generate_chat_response` (line 39). -/
def PlaceholderService.generate_chat_response : String × Bool :=
  ("Service Not Configured.", false)

/-- `PlaceholderService.analyze_trades` (line 40). -/
def PlaceholderService.analyze_trades : Json :=
  .obj [("summary", .str "Service Not Configured."), ("insights", .arr [])]

/-- `PlaceholderService.generate_title_for_chat` (line 41): it returns the
string `"Error"`, not a "not configured" label. -/
def PlaceholderService.generate_title_for_chat : String := "Error"

/-- Resolving the selected branch to an importable service class.  The
`grok` branch runs `from .grok_service import GrokService`, but
`grok_service.py` defines its class under the name `AIService`, so that
branch raises `ImportError` while `provider_selector` is being imported —
before `main.py`'s `try` around service construction can run. -/
def importSelectedService (env : Env) : Except String ProviderChoice :=
  match selectedBranch env with
  | .grok => .error "ImportError: cannot import name GrokService from grok_service"
  | c => .ok c

end Selector

namespace Main

/-- Constructing the selected service instance (`ai_service = AIService()`
in `main.py`), together with `AIService.__name__` for the health report.
The Gemini and Groq constructors raise `ValueError` when their API key is
missing or empty; `PlaceholderService.__init__` always raises. -/
def initService (choice : Selector.ProviderChoice) (env : Selector.Env) :
    Except String String :=
  match choice with
  | .gemini =>
    match env.geminiKey with
    | some k =>
      if k ≠ "" then .ok "AIService"
      else .error "GEMINI_API_KEY is missing. Cannot initialize AI client."
    | none => .error "GEMINI_API_KEY is missing. Cannot initialize AI client."
  | .groq =>
    match env.groqKey with
    | some k =>
      if k ≠ "" then .ok "GroqService"
      else .error "GROQ_API_KEY is missing. Cannot initialize Groq client."
    | none => .error "GROQ_API_KEY is missing. Cannot initialize Groq client."
  | .grok =>
    match env.xaiKey with
    | some k =>
      if k ≠ "" then .ok "AIService"
      else .error "XAI_API_KEY is missing. Cannot initialize Grok client."
    | none => .error "XAI_API_KEY is missing. Cannot initialize Grok client."
  | .placeholder =>
    match Selector.placeholderInit with
    | .ok _ => .ok "PlaceholderService"
    | .error e => .error e

/-- How the process comes up. -/
inductive StartupOutcome where
  | running (providerName : String) : StartupOutcome
  | exited (code : Nat) : StartupOutcome
  | importCrash : StartupOutcome
deriving Repr, DecidableEq

/-- `main.py` startup (lines 39-49): import the selected class (an
`ImportError` is unhandled and kills the interpreter), then construct it
inside `try`; any construction exception is caught and `os._exit(1)` runs,
so the server never comes up on a failed construction. -/
def mainStartup (env : Selector.Env) : StartupOutcome :=
  match Selector.importSelectedService env with
  | .error _ => .importCrash
  | .ok choice =>
    match initService choice env with
    | .ok name => .running name
    | .error _ => .exited 1

/-- Whether the claim's "the process still starts" holds of a startup. -/
def processStarts (env : Selector.Env) : Bool :=
  match mainStartup env with
  | .running _ => true
  | _ => false

/-- The `/health` endpoint (lines 114-117): reachable only in a running
process, and it always reports `status = "ok"` with the selected class
name — there is no degraded status. -/
def health (s : StartupOutcome) : Option (String × String × String) :=
  match s with
  | .running name => some ("ok", "ai-microservice", name)
  | _ => none

/-- The `/ai/generate-title` endpoint (lines 103-111) applied to the value
the service returned: `TitleResponse(title=title or "New Chat")`.  Python
`or` replaces a falsy title (`None`, `""`, `0`, `[]`, ...) with
`"New Chat"`; pydantic's `str` field then accepts only an actual string —
a truthy non-string title raises `ValidationError`, which the endpoint's
`except` turns into an HTTP 500 error response. -/
def generate_title_endpoint (svcResult : Option Json) : Except String String :=
  let t : Json :=
    match svcResult with
    | none => .str "New Chat"
    | some v => if v.pyTruthy then v else .str "New Chat"
  match t with
  | .str s => .ok s
  | _ => .error "AI Microservice Error: validation error for TitleResponse"

end Main

/-- Spec-side reading of C6 for the Gemini adapter, following the spec's
words: the backend response reports search-grounding metadata (grounding
metadata on the first candidate whose search entry point is present). -/
def reportsSearchGrounding (r : Gemini.Response) : Prop :=
  ∃ c gm, r.candidates.head? = some c ∧ c.grounding_metadata = some gm ∧
    gm.search_entry_point ≠ none

/-- Spec-side reading of C6 for the tool-calling adapters, following the
spec's words: the backend response reports a tool call. -/
def reportsToolCall (m : CompletionMessage) : Prop := m.tool_calls ≠ []

/-! ## Concrete instances used in closed theorems -/

/-- A classification completion that decodes to `{"intent": "LOG_TRADE"}`. -/
def logTradeCompletion : ClassifyOutcome := .parsed (.obj [("intent", .str "LOG_TRADE")])

/-- A classification completion that decodes to `{"intent": "NEWS_MARKET"}`. -/
def newsCompletion : ClassifyOutcome := .parsed (.obj [("intent", .str "NEWS_MARKET")])

/-- A valid-JSON classification completion whose intent value is outside
the five category tokens. -/
def bananaCompletion : ClassifyOutcome := .parsed (.obj [("intent", .str "banana")])

/-- Field list of a well-formed trade completion that omits `quantity`. -/
def tradeFieldsNoQuantity : List (String × Json) :=
  [("ticker", .str "TSLA"), ("entry_date", .str "2025-10-12"),
   ("entry_price", .num 200)]

/-- A well-formed trade completion that omits the `quantity` field. -/
def tradeJsonNoQuantity : Json := .obj tradeFieldsNoQuantity

/-- A fully-populated valid trade completion. -/
def validTradeJson : Json :=
  .obj [("ticker", .str "TSLA"), ("entry_date", .str "2025-10-12"),
        ("entry_price", .num 200), ("quantity", .num 10)]

/-- An upstream that is 503-unavailable on the first attempt and returns
the valid trade completion on every later attempt. -/
def transientOracle : Nat → ExtractOutcome := fun i =>
  if i = 0 then .unavailable else .ok (.json validTradeJson)

/-- An environment whose `AI_PROVIDER` is not one of `gemini`/`grok`/`groq`,
with every API key present. -/
def envUnrecognized : Selector.Env :=
  { aiProvider := some "openai", geminiKey := some "gk",
    xaiKey := some "xk", groqKey := some "qk" }

/-- A Gemini chat response that carries search-grounding metadata. -/
def groundedResponse : Gemini.Response :=
  { text := "TSLA is up today.",
    candidates := [{ parts := ["TSLA is up today."],
                     grounding_metadata := some { search_entry_point := some () } }],
    block_reason := none }

/-- A first completion that requests one well-formed `fetch_stock_news`
tool call. -/
def toolCallMessage : CompletionMessage :=
  { content := "",
    tool_calls := [{ id := "call_1", name := "fetch_stock_news",
                     argsQuery := some "TSLA" }] }

/-! ## Theorems -/

/-- Characterization of one classification parse step: it either raises
(`none`), yields the default `"OTHER"`, or yields the uppercased string
found under the `"intent"` key. -/
theorem intentStep_cases (c : ClassifyOutcome) :
    intentStep c = none ∨ intentStep c = some "OTHER" ∨
    ∃ fields s, c = .parsed (.obj fields) ∧
      lookupField fields "intent" = some (.str s) ∧
      intentStep c = some (pyUpper s) := by
  cases c with
  | failure => exact Or.inl rfl
  | parsed j =>
    cases j with
    | obj fields =>
      rcases h : lookupField fields "intent" with _ | v
      · exact Or.inr (Or.inl (by simp [intentStep, h]))
      · cases v with
        | str s => exact Or.inr (Or.inr ⟨fields, s, rfl, h, by simp [intentStep, h]⟩)
        | null => exact Or.inl (by simp [intentStep, h])
        | bool b => exact Or.inl (by simp [intentStep, h])
        | num n => exact Or.inl (by simp [intentStep, h])
        | arr xs => exact Or.inl (by simp [intentStep, h])
        | obj fs => exact Or.inl (by simp [intentStep, h])
    | null => exact Or.inl rfl
    | bool b => exact Or.inl rfl
    | num n => exact Or.inl rfl
    | str s => exact Or.inl rfl
    | arr xs => exact Or.inl rfl

/-- The Gemini extraction run always reports the classification call count
of `classify_intent`, whichever way the gate goes. -/
theorem gemini_extract_classifyCalls (co : Nat → ClassifyOutcome)
    (o : Nat → ExtractOutcome) :
    (Gemini.extract_trade_from_text co o).classifyCalls = Gemini.classifyCallsOf co := by
  unfold Gemini.extract_trade_from_text
  split <;> rfl

/-- `classify_intent` issues one or two classification requests. -/
theorem gemini_classifyCalls_pos (co : Nat → ClassifyOutcome) :
    1 ≤ Gemini.classifyCallsOf co := by
  unfold Gemini.classifyCallsOf
  split <;> omega

/-- C1: for every input whose intent classification is not `LOG_TRADE`,
`extract_trade_from_text` returns `None` without issuing the structured
extraction completion, and the classifier is invoked (at least once) on
every extraction call — in all three adapters. -/
theorem C1_intent_gated_extraction :
    (∀ (co : Nat → ClassifyOutcome) (o : Nat → ExtractOutcome),
      Gemini.classify_intent co ≠ "LOG_TRADE" →
        (Gemini.extract_trade_from_text co o).result = none ∧
        (Gemini.extract_trade_from_text co o).calls = 0) ∧
    (∀ (c : ClassifyOutcome) (e : ExtractOutcome),
      Groq.classify_intent c ≠ "LOG_TRADE" →
        (Groq.extract_trade_from_text c e).result = none ∧
        (Groq.extract_trade_from_text c e).calls = 0) ∧
    (∀ (c : ClassifyOutcome) (e : ExtractOutcome),
      Grok.classify_intent c ≠ "LOG_TRADE" →
        (Grok.extract_trade_from_text c e).result = none ∧
        (Grok.extract_trade_from_text c e).calls = 0) ∧
    (∀ (co : Nat → ClassifyOutcome) (o : Nat → ExtractOutcome),
      1 ≤ (Gemini.extract_trade_from_text co o).classifyCalls) ∧
    (∀ (c : ClassifyOutcome) (e : ExtractOutcome),
      (Groq.extract_trade_from_text c e).classifyCalls = 1 ∧
      (Grok.extract_trade_from_text c e).classifyCalls = 1) := by
  refine ⟨?_, ?_, ?_, ?_, ?_⟩
  · intro co o h
    rw [Gemini.extract_trade_from_text, if_pos h]
    exact ⟨rfl, rfl⟩
  · intro c e h
    unfold Groq.extract_trade_from_text
    rw [if_pos h]
    exact ⟨rfl, rfl⟩
  · intro c e h
    unfold Grok.extract_trade_from_text
    rw [if_pos h]
    exact ⟨rfl, rfl⟩
  · intro co o
    rw [gemini_extract_classifyCalls]
    exact gemini_classifyCalls_pos co
  · intro c e
    constructor
    · unfold Groq.extract_trade_from_text
      split <;> cases e <;> rfl
    · unfold Grok.extract_trade_from_text
      split <;> cases e <;> rfl

/-- Witness for C1 at a concrete non-`LOG_TRADE` classification. -/
theorem C1_intent_gated_extraction_witness :
    Gemini.classify_intent (fun _ => newsCompletion) ≠ "LOG_TRADE" ∧
    (Gemini.extract_trade_from_text (fun _ => newsCompletion)
      (fun _ => .ok (.json validTradeJson))).result = none ∧
    (Gemini.extract_trade_from_text (fun _ => newsCompletion)
      (fun _ => .ok (.json validTradeJson))).calls = 0 := by
  have h : Gemini.classify_intent (fun _ => newsCompletion) ≠ "LOG_TRADE" := by decide
  have h2 := C1_intent_gated_extraction.1 (fun _ => newsCompletion)
    (fun _ => .ok (.json validTradeJson)) h
  exact ⟨h, h2.1, h2.2⟩

/-- C10: in every adapter, `analyze_trades` on an empty trade list returns
the fixed non-empty "no trades" summary with an empty insights list,
without issuing any backend completion request. -/
theorem C10_empty_analysis_short_circuit :
    (∀ o : AnalyzeOutcome, Gemini.analyze_trades ([] : List Nat) o =
      ⟨.obj [("summary", .str "No trades to analyze."), ("insights", .arr [])], [], 0⟩) ∧
    (∀ o : AnalyzeOutcome, Groq.analyze_trades ([] : List Nat) o =
      ⟨.obj [("summary", .str "No trades."), ("insights", .arr [])], [], 0⟩) ∧
    (∀ o : AnalyzeOutcome, Grok.analyze_trades ([] : List Nat) o =
      ⟨.obj [("summary", .str "No trades to analyze."), ("insights", .arr [])], [], 0⟩) ∧
    "No trades to analyze." ≠ "" ∧ "No trades." ≠ "" := by
  exact ⟨fun o => rfl, fun o => rfl, fun o => rfl, by decide, by decide⟩

/-- C2 counterexample: with the unrecognized provider value `"openai"`
(and every API key present) the selector falls through to
`PlaceholderService`, whose constructor raises; `main.py` catches the
construction failure and calls `os._exit(1)`, so the process does not start
and the health endpoint is unreachable. -/
theorem C2_counterexample_startup_exits :
    Main.processStarts envUnrecognized = false ∧
    Main.mainStartup envUnrecognized = .exited 1 ∧
    Main.health (Main.mainStartup envUnrecognized) = none := by
  refine ⟨by decide, by decide, ?_⟩
  have h : Main.mainStartup envUnrecognized = .exited 1 := by decide
  rw [h]
  rfl

/-- C2 (amended): an unrecognized provider-selection value selects the
`PlaceholderService` branch, whose method bodies would return
"not configured" results (`generate_title_for_chat` excepted: it returns
`"Error"`), but whose constructor unconditionally raises `ValueError`;
`main.py` catches the construction failure and exits the process with
code 1, so the server never starts and the health endpoint is not
reachable.  When the server does start, the health endpoint always reports
status `"ok"` — there is no degraded status. -/
theorem C2_amended_invalid_provider_exits :
    (∀ env : Selector.Env, Selector.selectedBranch env = .placeholder →
      Main.mainStartup env = .exited 1 ∧
      Main.health (Main.mainStartup env) = none) ∧
    Selector.placeholderInit = .error "Invalid AI_PROVIDER set in environment." ∧
    Selector.PlaceholderService.extract_trade_from_text = none ∧
    Selector.PlaceholderService.generate_chat_response = ("Service Not Configured.", false) ∧
    Selector.PlaceholderService.analyze_trades =
      Json.obj [("summary", .str "Service Not Configured."), ("insights", .arr [])] ∧
    Selector.PlaceholderService.generate_title_for_chat = "Error" ∧
    (∀ (env : Selector.Env) (name : String), Main.mainStartup env = .running name →
      Main.health (Main.mainStartup env) = some ("ok", "ai-microservice", name)) := by
  refine ⟨?_, rfl, rfl, rfl, rfl, rfl, ?_⟩
  · intro env h
    have hm : Main.mainStartup env = .exited 1 := by
      unfold Main.mainStartup Selector.importSelectedService
      rw [h]
      rfl
    exact ⟨hm, by rw [hm]; rfl⟩
  · intro env name h
    rw [h]
    rfl

/-- Witness for C2 (amended) at the concrete environment. -/
theorem C2_amended_invalid_provider_exits_witness :
    Selector.selectedBranch envUnrecognized = .placeholder ∧
    Main.mainStartup envUnrecognized = .exited 1 := by
  have h : Selector.selectedBranch envUnrecognized = .placeholder := by decide
  exact ⟨h, (C2_amended_invalid_provider_exits.1 envUnrecognized h).1⟩

/-- A completion object with no `quantity` binding fails `TradeCreate`
validation: the field is required and has no default. -/
theorem validateTradeCreate_noQuantity (fields : List (String × Json))
    (h : lookupField fields "quantity" = none) :
    validateTradeCreate (.obj fields) = none := by
  unfold validateTradeCreate
  rcases h1 : (lookupField fields "ticker").bind asStr with _ | t1
  · simp [h1]
  rcases h2 : (lookupField fields "entry_date").bind asStr with _ | t2
  · simp [h1, h2]
  rcases h3 : (lookupField fields "entry_price").bind asNum with _ | t3
  · simp [h1, h2, h3]
  simp [h1, h2, h3, h]

/-- Whenever validation succeeds, the record's `quantity` is exactly the
number bound to `"quantity"` in the completion object — no default is
applied anywhere. -/
theorem validateTradeCreate_quantity_explicit (j : Json) (t : TradeCreate)
    (h : validateTradeCreate j = some t) :
    ∃ fields, j = .obj fields ∧
      lookupField fields "quantity" = some (.num t.quantity) := by
  cases j with
  | obj fields =>
    refine ⟨fields, rfl, ?_⟩
    simp only [validateTradeCreate, Option.bind_eq_bind, Option.bind_eq_some,
      Option.pure_def, Option.some.injEq] at h
    obtain ⟨ticker, -, entry_date, -, entry_price, -, quantity, hq, ed, -, ep, -, nt, -, ht⟩ := h
    obtain ⟨v, hv, hnum⟩ := hq
    cases v <;> simp [asNum] at hnum
    subst ht
    simpa [hnum] using hv
  | null => simp [validateTradeCreate] at h
  | bool b => simp [validateTradeCreate] at h
  | num n => simp [validateTradeCreate] at h
  | str s => simp [validateTradeCreate] at h
  | arr xs => simp [validateTradeCreate] at h

/-- C3 counterexample: a `LOG_TRADE`-classified input whose extraction
completion is a well-formed trade object *without* a `quantity` field.  The
claim demands the record be returned with the default `quantity = 1`; the
Gemini extractor instead fails pydantic validation and returns `None` — no
default is applied by the extractor. -/
theorem C3_counterexample_no_default_applied :
    Gemini.classify_intent (fun _ => logTradeCompletion) = "LOG_TRADE" ∧
    (Gemini.extract_trade_from_text (fun _ => logTradeCompletion)
      (fun _ => .ok (.json tradeJsonNoQuantity))).result = none ∧
    (Gemini.extract_trade_from_text (fun _ => logTradeCompletion)
      (fun _ => .ok (.json tradeJsonNoQuantity))).result ≠
      some ⟨"TSLA", "2025-10-12", 200, 1, none, none, none⟩ := by
  refine ⟨by decide, by decide, by decide⟩

/-- C3 (amended): a returned record always carries the `quantity` that was
explicitly present in the completion (the schema requires the field, so a
returned record is never missing it), but the extractor applies no default:
in all three adapters a completion that omits `quantity` fails validation
and `extract_trade_from_text` returns `None`.  The "default quantity to 1"
rule only exists as prompt text addressed to the model. -/
theorem C3_amended_quantity_required :
    (∀ (j : Json) (t : TradeCreate), validateTradeCreate j = some t →
      ∃ fields, j = .obj fields ∧
        lookupField fields "quantity" = some (.num t.quantity)) ∧
    (∀ (co : Nat → ClassifyOutcome) (fields : List (String × Json)),
      lookupField fields "quantity" = none →
      (Gemini.extract_trade_from_text co
        (fun _ => .ok (.json (.obj fields)))).result = none) ∧
    (∀ (c : ClassifyOutcome) (fields : List (String × Json)),
      lookupField fields "quantity" = none →
      (Groq.extract_trade_from_text c (.ok (.json (.obj fields)))).result = none) ∧
    (∀ (c : ClassifyOutcome) (fields : List (String × Json)),
      lookupField fields "quantity" = none →
      (Grok.extract_trade_from_text c (.ok (.json (.obj fields)))).result = none) := by
  refine ⟨validateTradeCreate_quantity_explicit, ?_, ?_, ?_⟩
  · intro co fields h
    unfold Gemini.extract_trade_from_text
    split
    · rfl
    · show (Gemini.extractLoop (fun _ => .ok (.json (.obj fields))) 0 3).result = none
      show validateTradeCreate (.obj fields) = none
      exact validateTradeCreate_noQuantity fields h
  · intro c fields h
    unfold Groq.extract_trade_from_text
    split
    · rfl
    · show validateTradeCreate (.obj fields) = none
      exact validateTradeCreate_noQuantity fields h
  · intro c fields h
    unfold Grok.extract_trade_from_text
    split
    · rfl
    · show validateTradeCreate (.obj fields) = none
      exact validateTradeCreate_noQuantity fields h

/-- Witness for C3 (amended) at the concrete quantity-less completion. -/
theorem C3_amended_quantity_required_witness :
    lookupField tradeFieldsNoQuantity "quantity" = none ∧
    (Groq.extract_trade_from_text logTradeCompletion
      (.ok (.json (.obj tradeFieldsNoQuantity)))).result = none :=
  ⟨rfl, C3_amended_quantity_required.2.2.1 logTradeCompletion tradeFieldsNoQuantity rfl⟩

/-- C4 counterexample: the claim's retry policy fails for the Grok adapter
(the Groq adapter is identical).  On a `LOG_TRADE` input whose extraction
attempt hits a transient 503, Grok's `extract_trade_from_text` gives up at
once: one completion request, no backoff sleep, result `None` — whereas the
claimed 3-attempt policy (implemented only by the Gemini adapter, shown on
the same scenario) would have slept 1 second, retried, and returned the
trade. -/
theorem C4_counterexample_no_retry_in_grok :
    (Grok.extract_trade_from_text logTradeCompletion .unavailable).result = none ∧
    (Grok.extract_trade_from_text logTradeCompletion .unavailable).calls = 1 ∧
    (Grok.extract_trade_from_text logTradeCompletion .unavailable).delays = [] ∧
    (Gemini.extract_trade_from_text (fun _ => logTradeCompletion) transientOracle).result =
      some ⟨"TSLA", "2025-10-12", 200, 10, none, none, none⟩ ∧
    (Gemini.extract_trade_from_text (fun _ => logTradeCompletion) transientOracle).calls = 2 ∧
    (Gemini.extract_trade_from_text (fun _ => logTradeCompletion) transientOracle).delays = [1] := by
  exact ⟨by decide, by decide, by decide, by decide, by decide, by decide⟩

/-- C4 (amended): only the Gemini adapter retries.  Its
`extract_trade_from_text` and `generate_chat_response` make at most 3
attempts, sleep exactly `2 ^ attempt` seconds before each retry, and retry
only after a 503-unavailable outcome; exhausting all three attempts on 503s
yields `None` (extraction) or the fixed fallback message (chat).  The Grok
and Groq adapters make a single attempt with no backoff for both
operations, resolving to `None` / their fixed fallback on any failure.  No
adapter raises (every embedded operation is total). -/
theorem C4_amended_retry_only_in_gemini :
    (∀ (co : Nat → ClassifyOutcome) (o : Nat → ExtractOutcome),
      (Gemini.extract_trade_from_text co o).calls ≤ 3 ∧
      (Gemini.extract_trade_from_text co o).delays =
        (List.range ((Gemini.extract_trade_from_text co o).calls - 1)).map (fun i => 2 ^ i) ∧
      (2 ≤ (Gemini.extract_trade_from_text co o).calls → o 0 = .unavailable) ∧
      (3 ≤ (Gemini.extract_trade_from_text co o).calls → o 1 = .unavailable)) ∧
    (∀ o : Nat → Gemini.ChatOutcome,
      (Gemini.generate_chat_response o).calls ≤ 3 ∧
      (Gemini.generate_chat_response o).delays =
        (List.range ((Gemini.generate_chat_response o).calls - 1)).map (fun i => 2 ^ i) ∧
      (2 ≤ (Gemini.generate_chat_response o).calls → o 0 = .unavailable) ∧
      (3 ≤ (Gemini.generate_chat_response o).calls → o 1 = .unavailable)) ∧
    (∀ o : Nat → Gemini.ChatOutcome, o 0 = .unavailable → o 1 = .unavailable →
      o 2 = .unavailable →
      (Gemini.generate_chat_response o).message = Gemini.fallback_msg ∧
      (Gemini.generate_chat_response o).is_grounded = false ∧
      (Gemini.generate_chat_response o).delays = [1, 2]) ∧
    (∀ (co : Nat → ClassifyOutcome) (o : Nat → ExtractOutcome), o 0 = .unavailable →
      o 1 = .unavailable → o 2 = .unavailable →
      (Gemini.extract_trade_from_text co o).result = none) ∧
    (∀ (c : ClassifyOutcome) (e : ExtractOutcome),
      (Groq.extract_trade_from_text c e).calls ≤ 1 ∧
      (Groq.extract_trade_from_text c e).delays = [] ∧
      (Grok.extract_trade_from_text c e).calls ≤ 1 ∧
      (Grok.extract_trade_from_text c e).delays = []) ∧
    (∀ (news : String → String) (second : ToolChatOutcome),
      (Groq.generate_chat_response .failure news second).message = Groq.chatFallback ∧
      (Groq.generate_chat_response .failure news second).calls = 1 ∧
      (Groq.generate_chat_response .failure news second).delays = [] ∧
      (Grok.generate_chat_response .failure news second).message = Grok.chatFallback ∧
      (Grok.generate_chat_response .failure news second).calls = 1 ∧
      (Grok.generate_chat_response .failure news second).delays = []) := by
  refine ⟨?_, ?_, ?_, ?_, ?_, ?_⟩
  · intro co o
    by_cases hgate : Gemini.classify_intent co ≠ "LOG_TRADE"
    · simp only [Gemini.extract_trade_from_text, if_pos hgate]
      exact ⟨by omega, rfl, fun h => absurd h (by omega), fun h => absurd h (by omega)⟩
    · simp only [Gemini.extract_trade_from_text, if_neg hgate]
      rcases h0 : o 0 with t0 | _ | _ | _ <;> rcases h1 : o 1 with t1 | _ | _ | _ <;>
        rcases h2 : o 2 with t2 | _ | _ | _ <;>
        simp [Gemini.extractLoop, h0, h1, h2, List.range_succ]
  · intro o
    rcases h0 : o 0 with r0 | _ | _ | _ <;> rcases h1 : o 1 with r1 | _ | _ | _ <;>
      rcases h2 : o 2 with r2 | _ | _ | _ <;>
      simp [Gemini.generate_chat_response, Gemini.chatLoop, h0, h1, h2, List.range_succ]
  · intro o h0 h1 h2
    simp [Gemini.generate_chat_response, Gemini.chatLoop, h0, h1, h2]
  · intro co o h0 h1 h2
    by_cases hgate : Gemini.classify_intent co ≠ "LOG_TRADE"
    · simp only [Gemini.extract_trade_from_text, if_pos hgate]
    · simp only [Gemini.extract_trade_from_text, if_neg hgate]
      simp [Gemini.extractLoop, h0, h1, h2]
  · intro c e
    refine ⟨?_, ?_, ?_, ?_⟩
    · unfold Groq.extract_trade_from_text
      split <;> cases e <;> simp
    · unfold Groq.extract_trade_from_text
      split <;> cases e <;> simp
    · unfold Grok.extract_trade_from_text
      split <;> cases e <;> simp
    · unfold Grok.extract_trade_from_text
      split <;> cases e <;> simp
  · intro news second
    exact ⟨rfl, rfl, rfl, rfl, rfl, rfl⟩

/-- Witness for C4 (amended): three consecutive 503s on the Gemini chat
call exhaust the retries and yield the fixed fallback after backoffs of 1
and 2 seconds. -/
theorem C4_amended_retry_only_in_gemini_witness :
    (Gemini.generate_chat_response (fun _ => Gemini.ChatOutcome.unavailable)).message =
      Gemini.fallback_msg ∧
    (Gemini.generate_chat_response (fun _ => Gemini.ChatOutcome.unavailable)).delays =
      [1, 2] := by
  have h := C4_amended_retry_only_in_gemini.2.2.1
    (fun _ => Gemini.ChatOutcome.unavailable) rfl rfl rfl
  exact ⟨h.1, h.2.2⟩

/-- A string with a non-empty prefix is non-empty. -/
theorem append_ne_empty (s t : String) (h : s ≠ "") : s ++ t ≠ "" := by
  intro he
  apply h
  have h2 : s.data ++ t.data = [] := congrArg String.data he
  have h3 : s.data = [] := by
    cases hd : s.data <;> simp [hd] at h2 ⊢
  exact congrArg String.mk h3 |>.trans rfl

/-- The Gemini text-resolution chain never produces an empty string: the
final guard substitutes the generic message for an empty accumulation. -/
theorem gemini_resolve_ne_empty (r : Gemini.Response) :
    Gemini.resolveMessageText r ≠ "" := by
  unfold Gemini.resolveMessageText
  split
  · decide
  · assumption

/-- The three pre-guard steps of the chain, case by case. -/
theorem gemini_preResolve_cases (r : Gemini.Response) :
    (r.text ≠ "" → Gemini.preResolve r = r.text) ∧
    (∀ c, r.text = "" → r.candidates.head? = some c → c.parts ≠ [] →
      Gemini.preResolve r = String.join (c.parts.filter (fun p => p ≠ ""))) ∧
    (r.text = "" → r.candidates = [] →
      Gemini.preResolve r = Gemini.safetyText r) := by
  refine ⟨?_, ?_, ?_⟩
  · intro h
    unfold Gemini.preResolve
    rw [if_pos h]
  · intro c htext hhead hparts
    unfold Gemini.preResolve
    rw [if_neg (by simp [htext])]
    simp only [hhead]
    rw [if_pos hparts]
  · intro htext hcand
    unfold Gemini.preResolve
    rw [if_neg (by simp [htext]), hcand]
    rfl

/-- C5 counterexample: the Groq adapter has no text-extraction fallback
chain.  A completion whose message content is the empty string and which
carries no tool calls is returned verbatim: the caller receives an empty
chat message. -/
theorem C5_counterexample_groq_empty_message :
    (Groq.generate_chat_response (.ok ⟨"", []⟩) (fun _ => "") .failure).message = "" ∧
    (Grok.generate_chat_response (.ok ⟨"", []⟩) (fun _ => "") .failure).message = "" := by
  exact ⟨rfl, rfl⟩

/-- C5 (amended): only the Gemini adapter resolves the chat text through
the ordered chain — direct response text, then reassembled candidate part
texts, then the safety-block explanation, then the generic
could-not-generate message — and never returns an empty string.  The Grok
and Groq adapters return the upstream message content verbatim and can
return an empty string. -/
theorem C5_amended_fallback_chain_gemini_only :
    (∀ o : Nat → Gemini.ChatOutcome, (Gemini.generate_chat_response o).message ≠ "") ∧
    (∀ r : Gemini.Response, r.text ≠ "" → Gemini.resolveMessageText r = r.text) ∧
    (∀ (r : Gemini.Response) (c : Gemini.Candidate), r.text = "" →
      r.candidates.head? = some c → c.parts ≠ [] →
      String.join (c.parts.filter (fun p => p ≠ "")) ≠ "" →
      Gemini.resolveMessageText r = String.join (c.parts.filter (fun p => p ≠ ""))) ∧
    (∀ (r : Gemini.Response) (reason : String), r.text = "" → r.candidates = [] →
      r.block_reason = some reason →
      Gemini.resolveMessageText r =
        "I cannot answer that request. (Safety Block: " ++ reason ++ ")") ∧
    (∀ r : Gemini.Response, r.text = "" → r.candidates = [] → r.block_reason = none →
      Gemini.resolveMessageText r = Gemini.couldNotGenerate) ∧
    (∀ (m : CompletionMessage) (news : String → String) (second : ToolChatOutcome),
      m.tool_calls = [] →
      (Groq.generate_chat_response (.ok m) news second).message = m.content ∧
      (Grok.generate_chat_response (.ok m) news second).message = m.content) := by
  refine ⟨?_, ?_, ?_, ?_, ?_, ?_⟩
  · intro o
    have hf : Gemini.fallback_msg ≠ "" := by decide
    rcases h0 : o 0 with r0 | _ | _ | _ <;> rcases h1 : o 1 with r1 | _ | _ | _ <;>
      rcases h2 : o 2 with r2 | _ | _ | _ <;>
      simp [Gemini.generate_chat_response, Gemini.chatLoop, h0, h1, h2,
        gemini_resolve_ne_empty, hf]
  · intro r h
    have hpre := (gemini_preResolve_cases r).1 h
    unfold Gemini.resolveMessageText
    rw [hpre, if_neg h]
  · intro r c htext hhead hparts hjoin
    have hpre := (gemini_preResolve_cases r).2.1 c htext hhead hparts
    unfold Gemini.resolveMessageText
    rw [hpre, if_neg hjoin]
  · intro r reason htext hcand hblock
    have hpre := (gemini_preResolve_cases r).2.2 htext hcand
    have hsafe : Gemini.safetyText r =
        "I cannot answer that request. (Safety Block: " ++ reason ++ ")" := by
      unfold Gemini.safetyText
      rw [hblock]
    have hne := append_ne_empty ("I cannot answer that request. (Safety Block: " ++ reason)
      ")" (append_ne_empty "I cannot answer that request. (Safety Block: " reason (by decide))
    unfold Gemini.resolveMessageText
    rw [hpre, hsafe, if_neg hne]
  · intro r htext hcand hblock
    have hpre := (gemini_preResolve_cases r).2.2 htext hcand
    have hsafe : Gemini.safetyText r = "" := by
      unfold Gemini.safetyText
      rw [hblock]
    unfold Gemini.resolveMessageText
    rw [hpre, hsafe, if_pos rfl]
  · intro m news second h
    cases second <;> simp [Groq.generate_chat_response, Grok.generate_chat_response, h]

/-- Witness for C5 (amended) at concrete responses: a direct text reply, a
safety-blocked reply, and an all-empty reply. -/
theorem C5_amended_fallback_chain_gemini_only_witness :
    Gemini.resolveMessageText ⟨"All good.", [], none⟩ = "All good." ∧
    Gemini.resolveMessageText ⟨"", [], some "SAFETY"⟩ =
      "I cannot answer that request. (Safety Block: " ++ "SAFETY" ++ ")" ∧
    Gemini.resolveMessageText ⟨"", [], none⟩ = Gemini.couldNotGenerate :=
  ⟨C5_amended_fallback_chain_gemini_only.2.1 ⟨"All good.", [], none⟩ (by decide),
   C5_amended_fallback_chain_gemini_only.2.2.2.1 ⟨"", [], some "SAFETY"⟩ "SAFETY" rfl rfl rfl,
   C5_amended_fallback_chain_gemini_only.2.2.2.2.1 ⟨"", [], none⟩ rfl rfl rfl⟩

/-- C6 counterexample: a run in which the first Groq completion requests a
`fetch_stock_news` tool call, the lookup is executed (its result turn is
appended), and the *second* completion then fails.  The whole body sits in
one `try`, so the adapter returns the fallback with `is_grounded = false`
even though a tool call occurred — falsifying "when a tool call occurred
is_grounded is true".  The Grok adapter behaves identically. -/
theorem C6_counterexample_second_completion_failure :
    reportsToolCall toolCallMessage ∧
    (Groq.generate_chat_response (.ok toolCallMessage) (fun q => q)
      .failure).toolTurns = ["TSLA"] ∧
    (Groq.generate_chat_response (.ok toolCallMessage) (fun q => q)
      .failure).is_grounded = false ∧
    (Groq.generate_chat_response (.ok toolCallMessage) (fun q => q)
      .failure).message = Groq.chatFallback ∧
    (Grok.generate_chat_response (.ok toolCallMessage) (fun q => q)
      .failure).is_grounded = false ∧
    (Grok.generate_chat_response (.ok toolCallMessage) (fun q => q)
      .failure).message = Grok.chatFallback := by
  refine ⟨?_, rfl, rfl, rfl, rfl, rfl⟩
  simp [reportsToolCall, toolCallMessage]

/-- C6 (amended): when the completions themselves succeed, `is_grounded`
is true exactly when the backend response reports a tool call or
search-grounding metadata: Gemini sets it from the first candidate's
grounding metadata (`search_entry_point` present), while Groq and Grok set
it from the first completion's tool calls, for every behavior of the news
lookup (successful lookups, error JSON results, and malformed-argument
tool calls alike).  However, if the second completion issued after tool
dispatch fails, both tool-calling adapters return their fixed fallback
with `is_grounded = false` even though a tool call occurred. -/
theorem C6_amended_grounding_flag :
    (∀ (o : Nat → Gemini.ChatOutcome) (r : Gemini.Response), o 0 = .ok r →
      ((Gemini.generate_chat_response o).is_grounded = true ↔
        reportsSearchGrounding r)) ∧
    (∀ (m m2 : CompletionMessage) (news : String → String),
      ((Groq.generate_chat_response (.ok m) news (.ok m2)).is_grounded = true ↔
        reportsToolCall m)) ∧
    (∀ (m m2 : CompletionMessage) (news : String → String),
      ((Grok.generate_chat_response (.ok m) news (.ok m2)).is_grounded = true ↔
        reportsToolCall m)) ∧
    (∀ (m : CompletionMessage) (news : String → String), reportsToolCall m →
      (Groq.generate_chat_response (.ok m) news .failure).is_grounded = false ∧
      (Groq.generate_chat_response (.ok m) news .failure).message =
        Groq.chatFallback) ∧
    (∀ (m : CompletionMessage) (news : String → String), reportsToolCall m →
      (Grok.generate_chat_response (.ok m) news .failure).is_grounded = false ∧
      (Grok.generate_chat_response (.ok m) news .failure).message =
        Grok.chatFallback) := by
  refine ⟨?_, ?_, ?_, ?_, ?_⟩
  · intro o r h
    have he : (Gemini.generate_chat_response o).is_grounded = Gemini.isGroundedOf r := by
      simp [Gemini.generate_chat_response, Gemini.chatLoop, h]
    rw [he]
    unfold Gemini.isGroundedOf
    rcases hc : r.candidates.head? with _ | c
    · simp [reportsSearchGrounding, hc]
    · rcases hg : c.grounding_metadata with _ | gm
      · simp [reportsSearchGrounding, hc, hg]
      · simp [reportsSearchGrounding, hc, hg, Option.isSome_iff_ne_none]
  · intro m m2 news
    rcases hl : m.tool_calls with _ | ⟨tc, rest⟩ <;>
      simp [Groq.generate_chat_response, hl, reportsToolCall]
  · intro m m2 news
    rcases hl : m.tool_calls with _ | ⟨tc, rest⟩ <;>
      simp [Grok.generate_chat_response, hl, reportsToolCall]
  · intro m news h
    rcases hl : m.tool_calls with _ | ⟨tc, rest⟩
    · exact absurd hl h
    · exact ⟨by simp [Groq.generate_chat_response, hl],
        by simp [Groq.generate_chat_response, hl]⟩
  · intro m news h
    rcases hl : m.tool_calls with _ | ⟨tc, rest⟩
    · exact absurd hl h
    · exact ⟨by simp [Grok.generate_chat_response, hl],
        by simp [Grok.generate_chat_response, hl]⟩

/-- Witness for C6 (amended): the grounded Gemini response satisfies the
iff, and the concrete tool-call-then-failure run yields a false flag. -/
theorem C6_amended_grounding_flag_witness :
    ((Gemini.generate_chat_response
        (fun _ => Gemini.ChatOutcome.ok groundedResponse)).is_grounded = true ↔
      reportsSearchGrounding groundedResponse) ∧
    (Groq.generate_chat_response (.ok toolCallMessage) (fun q => q)
      .failure).is_grounded = false :=
  ⟨C6_amended_grounding_flag.1 _ groundedResponse rfl,
   (C6_amended_grounding_flag.2.2.2.1 toolCallMessage (fun q => q)
     (by simp [reportsToolCall, toolCallMessage])).1⟩

/-- C7 counterexample: a valid-JSON completion `{"intent": "banana"}` makes
every adapter's `classify_intent` return `"BANANA"`, which is not one of
the five category tokens — the token constraint is requested from the model
but not enforced locally. -/
theorem C7_counterexample_unexpected_token :
    Groq.classify_intent bananaCompletion = "BANANA" ∧
    Grok.classify_intent bananaCompletion = "BANANA" ∧
    Gemini.classify_intent (fun _ => bananaCompletion) = "BANANA" ∧
    "BANANA" ∉ intentTokens := by
  exact ⟨by decide, by decide, by decide, by decide⟩

/-- C7 (amended): `classify_intent` returns `"OTHER"` (one of the five
tokens) on every API failure, JSON parse failure, non-object completion,
missing `intent` key, or non-string `intent` value; when the completion is
an object whose `intent` field is a string, it returns that string
uppercased, which need not be one of the five tokens. -/
theorem C7_amended_token_not_enforced :
    (∀ c : ClassifyOutcome,
      Groq.classify_intent c = "OTHER" ∨
      ∃ fields s, c = .parsed (.obj fields) ∧
        lookupField fields "intent" = some (.str s) ∧
        Groq.classify_intent c = pyUpper s) ∧
    (∀ c : ClassifyOutcome,
      Grok.classify_intent c = "OTHER" ∨
      ∃ fields s, c = .parsed (.obj fields) ∧
        lookupField fields "intent" = some (.str s) ∧
        Grok.classify_intent c = pyUpper s) ∧
    (∀ o : Nat → ClassifyOutcome,
      Gemini.classify_intent o = "OTHER" ∨
      ∃ i fields s, i ≤ 1 ∧ o i = .parsed (.obj fields) ∧
        lookupField fields "intent" = some (.str s) ∧
        Gemini.classify_intent o = pyUpper s) ∧
    "OTHER" ∈ intentTokens := by
  refine ⟨?_, ?_, ?_, by decide⟩
  · intro c
    rcases intentStep_cases c with h | h | ⟨fields, s, hc, hf, h⟩
    · exact Or.inl (by simp [Groq.classify_intent, h])
    · exact Or.inl (by simp [Groq.classify_intent, h])
    · exact Or.inr ⟨fields, s, hc, hf, by simp [Groq.classify_intent, h]⟩
  · intro c
    rcases intentStep_cases c with h | h | ⟨fields, s, hc, hf, h⟩
    · exact Or.inl (by simp [Grok.classify_intent, h])
    · exact Or.inl (by simp [Grok.classify_intent, h])
    · exact Or.inr ⟨fields, s, hc, hf, by simp [Grok.classify_intent, h]⟩
  · intro o
    rcases intentStep_cases (o 0) with h0 | h0 | ⟨fields, s, hc, hf, h0⟩
    · rcases intentStep_cases (o 1) with h1 | h1 | ⟨fields, s, hc, hf, h1⟩
      · exact Or.inl (by simp [Gemini.classify_intent, h0, h1])
      · exact Or.inl (by simp [Gemini.classify_intent, h0, h1])
      · exact Or.inr ⟨1, fields, s, by omega, hc, hf,
          by simp [Gemini.classify_intent, h0, h1]⟩
    · exact Or.inl (by simp [Gemini.classify_intent, h0])
    · exact Or.inr ⟨0, fields, s, by omega, hc, hf,
        by simp [Gemini.classify_intent, h0]⟩

/-- C8 counterexample: on a 51-trade list, `analyze_trades` embeds
`trades[:50]` — the *first* 50 entries — in the prompt.  Under the
repository's own list-order convention (`[-15:]`, `[-20:]`, `[-5:]` are the
"most recent" windows everywhere else), the oldest trade (index 0) is sent
and the 50 most recent trades (the last 50) are not what is sent. -/
theorem C8_counterexample_first_not_most_recent :
    (Gemini.analyze_trades (List.range 51) (.ok (.obj []))).sent =
      (List.range 51).take 50 ∧
    (0 : Nat) ∈ (Gemini.analyze_trades (List.range 51) (.ok (.obj []))).sent ∧
    (0 : Nat) ∉ lastN 50 (List.range 51) ∧
    (Gemini.analyze_trades (List.range 51) (.ok (.obj []))).sent ≠
      lastN 50 (List.range 51) := by
  exact ⟨by decide, by decide, by decide, by decide⟩

/-- C8 (amended): on a non-empty list every adapter sends at most 50 trades
— namely `trades[:50]`, the first 50 of the provided list rather than the
50 most recent — and any failure returns exactly
`{"summary": "Analysis failed.", "insights": []}`. -/
theorem C8_amended_first_fifty_and_fixed_failure :
    (∀ (α : Type) (trades : List α) (o : AnalyzeOutcome), trades ≠ [] →
      (Gemini.analyze_trades trades o).sent = trades.take 50 ∧
      (Gemini.analyze_trades trades o).sent.length ≤ 50 ∧
      (Groq.analyze_trades trades o).sent = trades.take 50 ∧
      (Grok.analyze_trades trades o).sent = trades.take 50) ∧
    (∀ (α : Type) (trades : List α), trades ≠ [] →
      (Gemini.analyze_trades trades .failure).result = failedAnalysis ∧
      (Groq.analyze_trades trades .failure).result = failedAnalysis ∧
      (Grok.analyze_trades trades .failure).result = failedAnalysis) := by
  constructor
  · intro α trades o h
    cases trades with
    | nil => exact absurd rfl h
    | cons a rest =>
      have hlen : ((a :: rest).take 50).length ≤ 50 := by
        rw [List.length_take]
        exact min_le_left _ _
      cases o <;> exact ⟨rfl, hlen, rfl, rfl⟩
  · intro α trades h
    cases trades with
    | nil => exact absurd rfl h
    | cons a rest => exact ⟨rfl, rfl, rfl⟩

/-- Witness for C8 (amended) at concrete short trade lists. -/
theorem C8_amended_first_fifty_and_fixed_failure_witness :
    (Gemini.analyze_trades [1, 2, 3] (.ok (.obj []))).sent = [1, 2, 3] ∧
    (Gemini.analyze_trades ([1] : List Nat) .failure).result = failedAnalysis := by
  constructor
  · have h := (C8_amended_first_fifty_and_fixed_failure.1 Nat [1, 2, 3]
      (.ok (.obj [])) (by decide)).1
    simpa using h
  · exact (C8_amended_first_fifty_and_fixed_failure.2 Nat [1] (by decide)).1

/-- C9 counterexample: the Grok title service passes `data.get("title")`
through unvalidated, so a completion `{"title": 5}` reaches the endpoint as
the number 5; `5 or "New Chat"` keeps the truthy 5, and
`TitleResponse(title=5)` fails pydantic validation — the endpoint answers
with an HTTP 500 error instead of a title, contradicting "never an
error". -/
theorem C9_counterexample_nonstring_title_errors :
    (Grok.generate_title_for_chat [] (.ok (.obj [("title", .num 5)]))).result =
      some (.num 5) ∧
    Main.generate_title_endpoint
      (Grok.generate_title_for_chat [] (.ok (.obj [("title", .num 5)]))).result =
      .error "AI Microservice Error: validation error for TitleResponse" := by
  exact ⟨rfl, rfl⟩

/-- C9 (amended): the title prompt is built from only the last 5 messages
in every adapter; a service-level exception yields the string `"New Chat"`,
and at the endpoint every falsy title (absent key, `None`, empty string,
zero, empty list) degrades to `"New Chat"`, so a delivered title is never
null or empty — but a truthy non-string title value passes through and
fails `TitleResponse` validation, surfacing as an HTTP 500 server error. -/
theorem C9_amended_title_window_and_fallback :
    (∀ (ms : List Message) (o : TitleOutcome),
      (Gemini.generate_title_for_chat ms o).contextMessages = lastN 5 ms ∧
      (Groq.generate_title_for_chat ms o).contextMessages = lastN 5 ms ∧
      (Grok.generate_title_for_chat ms o).contextMessages = lastN 5 ms) ∧
    (∀ ms : List Message,
      (Gemini.generate_title_for_chat ms .failure).result = some (.str "New Chat") ∧
      (Grok.generate_title_for_chat ms .failure).result = some (.str "New Chat")) ∧
    (∀ svc : Option Json,
      (∃ s, Main.generate_title_endpoint svc = .ok s ∧ s ≠ "") ∨
      (∃ v, svc = some v ∧ v.pyTruthy = true ∧ asStr v = none ∧
        Main.generate_title_endpoint svc =
          .error "AI Microservice Error: validation error for TitleResponse")) := by
  refine ⟨?_, ?_, ?_⟩
  · intro ms o
    cases o with
    | failure => exact ⟨rfl, rfl, rfl⟩
    | ok j => cases j <;> exact ⟨rfl, rfl, rfl⟩
  · intro ms
    exact ⟨rfl, rfl⟩
  · intro svc
    match svc with
    | none => exact Or.inl ⟨"New Chat", rfl, by decide⟩
    | some v =>
      by_cases hv : v.pyTruthy = true
      · cases v with
        | null => simp [Json.pyTruthy] at hv
        | str s =>
          refine Or.inl ⟨s, by simp [Main.generate_title_endpoint, hv], ?_⟩
          simpa [Json.pyTruthy] using hv
        | bool b =>
          exact Or.inr ⟨.bool b, rfl, hv, rfl,
            by simp [Main.generate_title_endpoint, hv]⟩
        | num n =>
          exact Or.inr ⟨.num n, rfl, hv, rfl,
            by simp [Main.generate_title_endpoint, hv]⟩
        | arr xs =>
          exact Or.inr ⟨.arr xs, rfl, hv, rfl,
            by simp [Main.generate_title_endpoint, hv]⟩
        | obj fs =>
          exact Or.inr ⟨.obj fs, rfl, hv, rfl,
            by simp [Main.generate_title_endpoint, hv]⟩
      · exact Or.inl ⟨"New Chat",
          by simp [Main.generate_title_endpoint, hv], by decide⟩
